import Mathlib

/-!
Shallow embedding of the core logic of `streamlit_app.py` (a timed
multiplication quiz): the game-state record, question generation,
scoring/phase bands, answer checking, timer enforcement, and the
highscore list operations.  Randomness is modelled by passing the
outcomes of the random draws as explicit parameters; wall-clock times
are modelled as integer seconds (only the comparison of the elapsed
time with the 300 second budget matters to the code); Python's
`list.sort(key=..., reverse=True)`
(a stable descending sort by key) is modelled with `List.insertionSort`
on the relation "has at least the score of", which is stable.
-/

namespace StreamlitApp

/-- Session status string: one of welcome, playing, game_over. -/
inductive Status where
  | welcome
  | playing
  | game_over
deriving DecidableEq, Repr

/-- A multiplication question, as built by `generate_question`. -/
structure Question where
  a : Int
  b : Int
  answer : Int
deriving DecidableEq, Repr

/-- The session game-state dictionary (`initialize_game_state` lists its keys). -/
structure GameState where
  status : Status
  current_round : Nat
  score : Nat
  current_question : Option Question
  start_time : Option Int
  last_message : String
  show_highscore_form : Bool
deriving DecidableEq, Repr

/-- `TOTAL_ROUNDS = 20`. -/
def TOTAL_ROUNDS : Nat := 20

/-- `SESSION_TIME_LIMIT_SECONDS = 300`. -/
def SESSION_TIME_LIMIT_SECONDS : Int := 300

/-- `PHASE_1_RANGE = (1, 10)`. -/
def PHASE_1_RANGE : Int × Int := (1, 10)

/-- `PHASE_2_RANGE = (11, 20)`. -/
def PHASE_2_RANGE : Int × Int := (11, 20)

/-- `PHASE_1_END_ROUND = 7`. -/
def PHASE_1_END_ROUND : Nat := 7

/-- `PHASE_2_END_ROUND = 14`. -/
def PHASE_2_END_ROUND : Nat := 14

/-- `POINTS_PHASE_1 = 1`. -/
def POINTS_PHASE_1 : Nat := 1

/-- `POINTS_PHASE_2 = 5`. -/
def POINTS_PHASE_2 : Nat := 5

/-- `POINTS_PHASE_3 = 10`. -/
def POINTS_PHASE_3 : Nat := 10

/-- `MAX_HIGHSCORES = 10`. -/
def MAX_HIGHSCORES : Nat := 10

/-- `initialize_game_state`: the default state for a new game. -/
def initialize_game_state : GameState where
  status := Status.welcome
  current_round := 0
  score := 0
  current_question := none
  start_time := none
  last_message := ""
  show_highscore_form := false

/-- `generate_question(current_round)`.  The two `random.randint` outcomes are
passed in as `x` and `y` (in call order) and the phase-2 coin flip
`random.random() > 0.5` as `sw`. -/
def generate_question (current_round : Nat) (x y : Int) (sw : Bool) : Question :=
  if current_round ≤ PHASE_1_END_ROUND then
    { a := x, b := y, answer := x * y }
  else if current_round ≤ PHASE_2_END_ROUND then
    if sw then { a := y, b := x, answer := y * x }
    else { a := x, b := y, answer := x * y }
  else
    { a := x, b := y, answer := x * y }

/-- `get_points_for_round(current_round)`. -/
def get_points_for_round (current_round : Nat) : Nat :=
  if current_round ≤ PHASE_1_END_ROUND then POINTS_PHASE_1
  else if current_round ≤ PHASE_2_END_ROUND then POINTS_PHASE_2
  else POINTS_PHASE_3

/-- `get_phase_for_round(current_round)`. -/
def get_phase_for_round (current_round : Nat) : Nat :=
  if current_round ≤ PHASE_1_END_ROUND then 1
  else if current_round ≤ PHASE_2_END_ROUND then 2
  else 3

/-- `check_answer(game_state, user_input)`: the state update performed on the
copied dictionary.  `x`, `y`, `sw` are the random draws consumed by the
`generate_question` call of the correct-and-not-final branch. -/
def check_answer (game_state : GameState) (user_input : Int) (x y : Int) (sw : Bool) :
    GameState :=
  match game_state.current_question with
  | none => game_state
  | some q =>
    if user_input = q.answer then
      if game_state.current_round + 1 > TOTAL_ROUNDS then
        { game_state with
          score := game_state.score + get_points_for_round game_state.current_round
          current_round := game_state.current_round + 1
          status := Status.game_over
          last_message := "Wow! You finished all rounds! You are a math star!"
          current_question := none
          show_highscore_form :=
            if game_state.score + get_points_for_round game_state.current_round > 0 then true
            else game_state.show_highscore_form }
      else
        { game_state with
          score := game_state.score + get_points_for_round game_state.current_round
          current_round := game_state.current_round + 1
          last_message := "Great job! That was correct. +" ++
            toString (get_points_for_round game_state.current_round) ++ " points."
          current_question :=
            some (generate_question (game_state.current_round + 1) x y sw) }
    else
      { game_state with
        status := Status.game_over
        last_message := "Oh no! The correct answer was " ++ toString q.answer ++ ". Game over."
        current_question := none
        show_highscore_form :=
          if game_state.score > 0 then true else game_state.show_highscore_form }

/-- `check_timer(game_state)` with the wall clock `time.time()` passed as `now`.
When the state is `playing` but `start_time` is absent the Python code raises
(`time.time() - None`), modelled by `none`. -/
def check_timer (game_state : GameState) (now : Int) : Option GameState :=
  if game_state.status ≠ Status.playing then some game_state
  else
    match game_state.start_time with
    | none => none
    | some t0 =>
      if now - t0 > SESSION_TIME_LIMIT_SECONDS then
        some { game_state with
          status := Status.game_over
          last_message := "Time is up! Game over."
          current_question := none
          show_highscore_form :=
            if game_state.score > 0 then true else game_state.show_highscore_form }
      else some game_state

/-- `start_game_callback`: the fresh state it stores in the session.  `x`, `y`,
`sw` are the draws of its `generate_question(1)` call and `now` is `time.time()`. -/
def start_game (x y : Int) (sw : Bool) (now : Int) : GameState :=
  { initialize_game_state with
    status := Status.playing
    start_time := some now
    current_round := 1
    current_question := some (generate_question 1 x y sw)
    last_message := "Here is your first question. Good luck!" }

/-- `restart_game_callback`: the state it stores in the session. -/
def restart_game : GameState := initialize_game_state

/-- A persisted highscore entry: a dictionary with name, score and date keys. -/
structure HighscoreEntry where
  name : String
  score : Int
  date : String
deriving DecidableEq, Repr

/-- The sort order used by the sort call in `add_highscore` (key the score
field, reverse true): `a` may come before `b` when the score of `a` is at
least the score of `b`. -/
def score_ge (a b : HighscoreEntry) : Prop := b.score ≤ a.score

instance : DecidableRel score_ge := fun a b =>
  inferInstanceAs (Decidable (b.score ≤ a.score))

instance : IsTotal HighscoreEntry score_ge := ⟨fun a b => le_total b.score a.score⟩

instance : IsTrans HighscoreEntry score_ge := ⟨fun _ _ _ h1 h2 => le_trans h2 h1⟩

/-- Python's `list.sort(key=..., reverse=True)` is a stable descending sort by
key; `insertionSort` on `score_ge` computes exactly that function. -/
def sort_by_score_desc (l : List HighscoreEntry) : List HighscoreEntry :=
  l.insertionSort score_ge

/-- `add_highscore(name, score, current_scores)`; the timestamp string produced
by `time.strftime` is passed in as `entry_time`. -/
def add_highscore (name : String) (score : Int) (current_scores : List HighscoreEntry)
    (entry_time : String) : List HighscoreEntry :=
  (sort_by_score_desc
    (current_scores ++ [{ name := name, score := score, date := entry_time }])).take
    MAX_HIGHSCORES

/-- One correct answer: feed the current question's own answer to
`check_answer`, with draw outcomes `d` for the next question. -/
def answer_correct_step (s : GameState) (d : Int × Int × Bool) : GameState :=
  match s.current_question with
  | some q => check_answer s q.answer d.1 d.2.1 d.2.2
  | none => s

/-- Play a sequence of correct answers, one per element of `ds`. -/
def play_correct (s : GameState) (ds : List (Int × Int × Bool)) : GameState :=
  ds.foldl answer_correct_step s

/-- Total points awarded for `k` consecutive correct answers starting at round `r`. -/
def points_sum : Nat → Nat → Nat
  | _, 0 => 0
  | r, k + 1 => get_points_for_round r + points_sum (r + 1) k

/-- The state invariant: a question is present exactly while playing. -/
def question_iff_playing (s : GameState) : Prop :=
  s.current_question.isSome ↔ s.status = Status.playing

/-- C2: for every round r in 1..20, `get_phase_for_round r` and
`get_points_for_round r` agree with the fixed band table (rounds 1-7: phase 1,
1 point; rounds 8-14: phase 2, 5 points; rounds 15-20: phase 3, 10 points),
and `get_phase_for_round` is monotonically non-decreasing in r. -/
theorem claim_C2 :
    (∀ r : Nat, 1 ≤ r → r ≤ 20 →
      ((r ≤ 7 → get_phase_for_round r = 1 ∧ get_points_for_round r = 1) ∧
       (8 ≤ r → r ≤ 14 → get_phase_for_round r = 2 ∧ get_points_for_round r = 5) ∧
       (15 ≤ r → get_phase_for_round r = 3 ∧ get_points_for_round r = 10))) ∧
    (∀ r s : Nat, 1 ≤ r → r ≤ s → s ≤ 20 →
      get_phase_for_round r ≤ get_phase_for_round s) := by
  constructor
  · intro r h1 h20
    unfold get_phase_for_round get_points_for_round PHASE_1_END_ROUND
      PHASE_2_END_ROUND POINTS_PHASE_1 POINTS_PHASE_2 POINTS_PHASE_3
    refine ⟨fun h7 => ?_, fun h8 h14 => ?_, fun h15 => ?_⟩ <;> split_ifs <;> omega
  · intro r s h1 hrs h20
    unfold get_phase_for_round PHASE_1_END_ROUND PHASE_2_END_ROUND
    split_ifs <;> omega

/-- Witness for C2 at rounds 10 and the pair (3, 17). -/
theorem claim_C2_witness :
    get_phase_for_round 10 = 2 ∧ get_points_for_round 10 = 5 ∧
    get_phase_for_round 3 ≤ get_phase_for_round 17 :=
  ⟨((claim_C2.1 10 (by decide) (by decide)).2.1 (by decide) (by decide)).1,
   ((claim_C2.1 10 (by decide) (by decide)).2.1 (by decide) (by decide)).2,
   claim_C2.2 3 17 (by decide) (by decide) (by decide)⟩

/-- C8: for every round r >= 1 and every outcome of the random draws,
`generate_question r` returns a question whose answer is the product of its
operands, and the operands match the phase table: rounds 1-7 give both
operands in [1,10]; rounds 8-14 give one operand in [1,10] and one in [11,20]
in either order; rounds 15-20 (and beyond) give both operands in [11,20]. -/
theorem claim_C8 (r : Nat) (x y : Int) (sw : Bool) (hr : 1 ≤ r) :
    (generate_question r x y sw).answer =
      (generate_question r x y sw).a * (generate_question r x y sw).b ∧
    (r ≤ 7 → 1 ≤ x → x ≤ 10 → 1 ≤ y → y ≤ 10 →
      (1 ≤ (generate_question r x y sw).a ∧ (generate_question r x y sw).a ≤ 10) ∧
      (1 ≤ (generate_question r x y sw).b ∧ (generate_question r x y sw).b ≤ 10)) ∧
    (8 ≤ r → r ≤ 14 → 1 ≤ x → x ≤ 10 → 11 ≤ y → y ≤ 20 →
      ((1 ≤ (generate_question r x y sw).a ∧ (generate_question r x y sw).a ≤ 10 ∧
        11 ≤ (generate_question r x y sw).b ∧ (generate_question r x y sw).b ≤ 20) ∨
       (11 ≤ (generate_question r x y sw).a ∧ (generate_question r x y sw).a ≤ 20 ∧
        1 ≤ (generate_question r x y sw).b ∧ (generate_question r x y sw).b ≤ 10))) ∧
    (15 ≤ r → 11 ≤ x → x ≤ 20 → 11 ≤ y → y ≤ 20 →
      (11 ≤ (generate_question r x y sw).a ∧ (generate_question r x y sw).a ≤ 20) ∧
      (11 ≤ (generate_question r x y sw).b ∧ (generate_question r x y sw).b ≤ 20)) := by
  unfold generate_question PHASE_1_END_ROUND PHASE_2_END_ROUND
  split_ifs <;> dsimp only <;> refine ⟨rfl, ?_, ?_, ?_⟩ <;> intros <;> omega

/-- Witness for C8 at round 9 with draws (3, 15) and the swap coin true. -/
theorem claim_C8_witness :
    (generate_question 9 3 15 true).answer =
      (generate_question 9 3 15 true).a * (generate_question 9 3 15 true).b ∧
    ((1 ≤ (generate_question 9 3 15 true).a ∧ (generate_question 9 3 15 true).a ≤ 10 ∧
      11 ≤ (generate_question 9 3 15 true).b ∧ (generate_question 9 3 15 true).b ≤ 20) ∨
     (11 ≤ (generate_question 9 3 15 true).a ∧ (generate_question 9 3 15 true).a ≤ 20 ∧
      1 ≤ (generate_question 9 3 15 true).b ∧ (generate_question 9 3 15 true).b ≤ 10)) :=
  ⟨(claim_C8 9 3 15 true (by decide)).1,
   (claim_C8 9 3 15 true (by decide)).2.2.1 (by decide) (by decide) (by decide)
     (by decide) (by decide) (by decide)⟩

/-- C4: for every state with status playing and a current question present,
and every answer different from the question's answer, `check_answer` returns
a state with status game_over, the question cleared, and a message revealing
the correct answer, at any round. -/
theorem claim_C4 (s : GameState) (q : Question) (u x y : Int) (sw : Bool)
    (hst : s.status = Status.playing) (hq : s.current_question = some q)
    (hne : u ≠ q.answer) :
    (check_answer s u x y sw).status = Status.game_over ∧
    (check_answer s u x y sw).current_question = none ∧
    (check_answer s u x y sw).last_message =
      "Oh no! The correct answer was " ++ toString q.answer ++ ". Game over." := by
  unfold check_answer
  rw [hq]
  simp [hne]

/-- Witness for C4: answering 5 to the question 2 x 3 at round 3. -/
theorem claim_C4_witness :
    (check_answer ⟨Status.playing, 3, 2, some ⟨2, 3, 6⟩, some 0, "", false⟩
        5 1 1 false).status = Status.game_over ∧
    (check_answer ⟨Status.playing, 3, 2, some ⟨2, 3, 6⟩, some 0, "", false⟩
        5 1 1 false).current_question = none ∧
    (check_answer ⟨Status.playing, 3, 2, some ⟨2, 3, 6⟩, some 0, "", false⟩
        5 1 1 false).last_message =
      "Oh no! The correct answer was " ++ toString (6 : Int) ++ ". Game over." :=
  claim_C4 ⟨Status.playing, 3, 2, some ⟨2, 3, 6⟩, some 0, "", false⟩
    ⟨2, 3, 6⟩ 5 1 1 false rfl rfl (by decide)

/-- C7: for every input state in which the current question is absent,
`check_answer` returns a state equal in value to its input; in-place mutation
does not arise, the operation being a pure function of its input here. -/
theorem claim_C7 (s : GameState) (u x y : Int) (sw : Bool)
    (hq : s.current_question = none) :
    check_answer s u x y sw = s := by
  unfold check_answer
  rw [hq]

/-- Witness for C7 on the initial state, which has no question. -/
theorem claim_C7_witness :
    check_answer initialize_game_state 0 1 1 false = initialize_game_state :=
  claim_C7 initialize_game_state 0 1 1 false rfl

/-- Counterexample to C1 as stated: the input state is playing with score 0
but `show_highscore_form` already true; a wrong answer ends the session and
leaves `show_highscore_form` true, while `score > 0` is false (the code only
ever sets the flag to true, it never resets it). -/
theorem claim_C1_cex :
    (check_answer ⟨Status.playing, 1, 0, some ⟨2, 3, 6⟩, some 0, "", true⟩
        0 1 1 false).show_highscore_form ≠
      decide (0 < (check_answer ⟨Status.playing, 1, 0, some ⟨2, 3, 6⟩, some 0, "", true⟩
        0 1 1 false).score) := by
  decide

/-- C1 (amended): for every termination of a playing session whose input state
has `show_highscore_form = false` — wrong answer via `check_answer`, completion
of round 20 via `check_answer`, or timeout via `check_timer` — the resulting
state's `show_highscore_form` equals `score > 0` for the resulting score. -/
theorem claim_C1 (s : GameState) (hst : s.status = Status.playing)
    (hshf : s.show_highscore_form = false) :
    (∀ (q : Question) (u x y : Int) (sw : Bool), s.current_question = some q →
      u ≠ q.answer →
      (check_answer s u x y sw).show_highscore_form =
        decide (0 < (check_answer s u x y sw).score)) ∧
    (∀ (q : Question) (x y : Int) (sw : Bool), s.current_question = some q →
      20 ≤ s.current_round →
      (check_answer s q.answer x y sw).show_highscore_form =
        decide (0 < (check_answer s q.answer x y sw).score)) ∧
    (∀ (now t0 : Int) (s' : GameState), s.start_time = some t0 →
      SESSION_TIME_LIMIT_SECONDS < now - t0 → check_timer s now = some s' →
      s'.show_highscore_form = decide (0 < s'.score)) := by
  refine ⟨?_, ?_, ?_⟩
  · intro q u x y sw hq hne
    unfold check_answer
    rw [hq]
    simp only [if_neg hne]
    rw [hshf]
    by_cases hp : 0 < s.score <;> simp [hp]
  · intro q x y sw hq hr
    unfold check_answer
    rw [hq]
    have h20 : s.current_round + 1 > TOTAL_ROUNDS := by unfold TOTAL_ROUNDS; omega
    simp only [if_pos rfl, if_pos h20]
    have hpos : 0 < s.score + get_points_for_round s.current_round := by
      unfold get_points_for_round POINTS_PHASE_1 POINTS_PHASE_2 POINTS_PHASE_3
      split_ifs <;> omega
    simp [hpos]
  · intro now t0 s' ht0 helaps hck
    unfold check_timer at hck
    rw [hst, ht0] at hck
    simp only [ne_eq, not_true_eq_false, if_false] at hck
    rw [if_pos (by omega : now - t0 > SESSION_TIME_LIMIT_SECONDS)] at hck
    cases hck
    dsimp only
    rw [hshf]
    by_cases hp : 0 < s.score <;> simp [hp]

/-- Witness for C1: a wrong answer from a playing state with score 3 and the
flag still false yields the flag true, matching `score > 0`. -/
theorem claim_C1_witness :
    (check_answer ⟨Status.playing, 1, 3, some ⟨2, 3, 6⟩, some 0, "", false⟩
        0 1 1 false).show_highscore_form =
      decide (0 < (check_answer ⟨Status.playing, 1, 3, some ⟨2, 3, 6⟩, some 0, "", false⟩
        0 1 1 false).score) :=
  (claim_C1 ⟨Status.playing, 1, 3, some ⟨2, 3, 6⟩, some 0, "", false⟩ rfl rfl).1
    ⟨2, 3, 6⟩ 0 1 1 false rfl (by decide)

/-- Counterexample to C5 as stated: a playing state with score 0 whose
`show_highscore_form` is already true times out, and the resulting flag stays
true even though `score > 0` is false. -/
theorem claim_C5_cex :
    ((check_timer ⟨Status.playing, 1, 0, some ⟨2, 3, 6⟩, some 0, "", true⟩ 301).getD
        initialize_game_state).show_highscore_form ≠
      decide (0 <
        ((check_timer ⟨Status.playing, 1, 0, some ⟨2, 3, 6⟩, some 0, "", true⟩ 301).getD
          initialize_game_state).score) := by
  decide

/-- C5 (amended): `check_timer` returns the state unchanged whenever the
status is not playing or the elapsed time is at most 300 seconds (so repeated
calls on a terminal state are no-ops); when the status is playing, the elapsed
time strictly exceeds 300 seconds and the input's `show_highscore_form` is
false, it returns a game_over state with the question cleared and
`show_highscore_form` equal to `score > 0`. -/
theorem claim_C5 (s : GameState) (now : Int) :
    (s.status ≠ Status.playing → check_timer s now = some s) ∧
    (∀ t0 : Int, s.start_time = some t0 → now - t0 ≤ SESSION_TIME_LIMIT_SECONDS →
      check_timer s now = some s) ∧
    (∀ t0 : Int, s.status = Status.playing → s.show_highscore_form = false →
      s.start_time = some t0 → SESSION_TIME_LIMIT_SECONDS < now - t0 →
      check_timer s now = some
        { s with
          status := Status.game_over
          last_message := "Time is up! Game over."
          current_question := none
          show_highscore_form := decide (0 < s.score) }) := by
  refine ⟨?_, ?_, ?_⟩
  · intro hst
    unfold check_timer
    rw [if_pos hst]
  · intro t0 ht0 hle
    unfold check_timer
    by_cases hst : s.status ≠ Status.playing
    · rw [if_pos hst]
    · rw [if_neg hst, ht0]
      dsimp only
      rw [if_neg (by omega : ¬ now - t0 > SESSION_TIME_LIMIT_SECONDS)]
  · intro t0 hst hshf ht0 hgt
    unfold check_timer
    rw [hst, ht0]
    simp only [ne_eq, not_true_eq_false, if_false]
    rw [if_pos (by omega : now - t0 > SESSION_TIME_LIMIT_SECONDS)]
    rw [hshf]
    by_cases hp : 0 < s.score <;> simp [hp]

/-- Witness for C5: no-op below the limit, and a timeout at 301 seconds from a
playing state with score 3 and the flag false. -/
theorem claim_C5_witness :
    check_timer ⟨Status.playing, 1, 3, some ⟨2, 3, 6⟩, some 0, "", false⟩ 300 =
      some ⟨Status.playing, 1, 3, some ⟨2, 3, 6⟩, some 0, "", false⟩ ∧
    check_timer ⟨Status.playing, 1, 3, some ⟨2, 3, 6⟩, some 0, "", false⟩ 301 =
      some ⟨Status.game_over, 1, 3, none, some 0, "Time is up! Game over.", true⟩ :=
  ⟨(claim_C5 ⟨Status.playing, 1, 3, some ⟨2, 3, 6⟩, some 0, "", false⟩ 300).2.1
      0 rfl (by decide),
   (claim_C5 ⟨Status.playing, 1, 3, some ⟨2, 3, 6⟩, some 0, "", false⟩ 301).2.2
      0 rfl rfl rfl (by decide)⟩

/-- C10: `add_highscore` is total over all string names and integer scores and
performs no validation: whenever the current list has at most 9 entries the
new entry — whatever its name (empty, untrimmed, longer than 20 characters) or
score (negative included) — appears verbatim in the returned leaderboard, and
on an empty leaderboard it is returned alone. -/
theorem claim_C10 (name : String) (score : Int) (cur : List HighscoreEntry)
    (t : String) (hlen : cur.length ≤ 9) :
    ({ name := name, score := score, date := t } : HighscoreEntry) ∈
      add_highscore name score cur t ∧
    add_highscore name score [] t = [{ name := name, score := score, date := t }] := by
  constructor
  · unfold add_highscore sort_by_score_desc MAX_HIGHSCORES
    rw [List.take_of_length_le]
    · rw [List.mem_insertionSort]
      simp
    · rw [(List.perm_insertionSort score_ge _).length_eq]
      simp only [List.length_append, List.length_cons, List.length_nil]
      omega
  · rfl

/-- Witness for C10: an empty untrimmed-style name and a negative score are
stored verbatim. -/
theorem claim_C10_witness :
    ({ name := "  a name of well over twenty characters  ", score := -5,
        date := "2026-10-12 00:00" } : HighscoreEntry) ∈
      add_highscore "  a name of well over twenty characters  " (-5)
        [{ name := "Ada", score := 102, date := "2026-10-12 00:00" }]
        "2026-10-12 00:00" ∧
    add_highscore "" (-5) [] "2026-10-12 00:00" =
      [{ name := "", score := -5, date := "2026-10-12 00:00" }] :=
  ⟨(claim_C10 "  a name of well over twenty characters  " (-5)
      [{ name := "Ada", score := 102, date := "2026-10-12 00:00" }]
      "2026-10-12 00:00" (by decide)).1,
   (claim_C10 "" (-5) [] "2026-10-12 00:00" (by decide)).2⟩

/-- C9: the predicate "a question is present if and only if the status is
playing" holds in the initial state and is preserved by starting, answering,
timer checks (whenever they return) and restarting, hence in every reachable
state. -/
theorem claim_C9 :
    question_iff_playing initialize_game_state ∧
    (∀ (x y : Int) (sw : Bool) (now : Int),
      question_iff_playing (start_game x y sw now)) ∧
    (∀ (s : GameState) (u x y : Int) (sw : Bool), question_iff_playing s →
      question_iff_playing (check_answer s u x y sw)) ∧
    (∀ (s : GameState) (now : Int) (s' : GameState), question_iff_playing s →
      check_timer s now = some s' → question_iff_playing s') ∧
    question_iff_playing restart_game := by
  refine ⟨by unfold question_iff_playing; decide, ?_, ?_, ?_,
    by unfold question_iff_playing; decide⟩
  · intro x y sw now
    simp [question_iff_playing, start_game]
  · intro s u x y sw h
    obtain ⟨st, r, c, q, t0, m, f⟩ := s
    unfold check_answer
    cases q with
    | none => exact h
    | some q =>
      simp only [question_iff_playing] at h ⊢
      split_ifs <;> simp_all
  · intro s now s' h hck
    unfold check_timer at hck
    by_cases hst : s.status ≠ Status.playing
    · rw [if_pos hst] at hck
      cases hck
      exact h
    · rw [if_neg hst] at hck
      cases ht0 : s.start_time with
      | none => rw [ht0] at hck; cases hck
      | some t0 =>
        rw [ht0] at hck
        dsimp only at hck
        by_cases hel : now - t0 > SESSION_TIME_LIMIT_SECONDS
        · rw [if_pos hel] at hck
          cases hck
          unfold question_iff_playing
          simp
        · rw [if_neg hel] at hck
          cases hck
          exact h

/-- Witness for C9: answering on the initial state (no question) preserves the
invariant. -/
theorem claim_C9_witness :
    question_iff_playing (check_answer initialize_game_state 0 1 1 false) :=
  claim_C9.2.2.1 initialize_game_state 0 1 1 false
    (by unfold question_iff_playing; decide)

/-- Stability of the descending sort: entries of any fixed score keep their
original relative order, i.e. filtering at a score commutes with sorting. -/
theorem filter_sort_by_score_desc (l : List HighscoreEntry) (v : Int) :
    (sort_by_score_desc l).filter (fun e => e.score == v) =
      l.filter (fun e => e.score == v) := by
  have hpair : (l.filter (fun e => e.score == v)).Pairwise score_ge := by
    apply List.pairwise_of_forall_mem_list
    intro a ha b hb
    have ha2 := (List.mem_filter.mp ha).2
    have hb2 := (List.mem_filter.mp hb).2
    simp only [beq_iff_eq] at ha2 hb2
    unfold score_ge
    rw [ha2, hb2]
  have hsub : (l.filter (fun e => e.score == v)).Sublist (sort_by_score_desc l) :=
    List.sublist_insertionSort hpair (List.filter_sublist l)
  have hsub2 : (l.filter (fun e => e.score == v)).Sublist
      ((sort_by_score_desc l).filter (fun e => e.score == v)) := by
    have h := hsub.filter (fun e => e.score == v)
    rwa [List.filter_filter, show (fun a : HighscoreEntry =>
      (a.score == v) && (a.score == v)) = fun a : HighscoreEntry => a.score == v
      by funext a; rw [Bool.and_self]] at h
  have hlen : ((sort_by_score_desc l).filter (fun e => e.score == v)).length =
      (l.filter (fun e => e.score == v)).length :=
    ((List.perm_insertionSort score_ge l).filter _).length_eq
  exact (hsub2.eq_of_length hlen.symm).symm

/-- C6: `add_highscore` returns the stable descending-by-score sort of the
input entries with the new entry appended, truncated to at most 10 entries:
the result is exactly the first 10 entries of the stable sort, has length at
most 10, is sorted descending by score, and the sort itself is a permutation
of the appended input on which filtering at any fixed score — hence the
relative order of equal-score entries — is preserved. -/
theorem claim_C6 (name : String) (score : Int) (cur : List HighscoreEntry)
    (t : String) :
    add_highscore name score cur t =
      (sort_by_score_desc
        (cur ++ [({ name := name, score := score, date := t } : HighscoreEntry)])).take MAX_HIGHSCORES ∧
    (add_highscore name score cur t).length ≤ 10 ∧
    (add_highscore name score cur t).Pairwise score_ge ∧
    (sort_by_score_desc (cur ++ [({ name := name, score := score, date := t } : HighscoreEntry)])).Perm
      (cur ++ [({ name := name, score := score, date := t } : HighscoreEntry)]) ∧
    ∀ v : Int,
      (sort_by_score_desc
          (cur ++ [({ name := name, score := score, date := t } : HighscoreEntry)])).filter
          (fun e => e.score == v) =
        (cur ++ [({ name := name, score := score, date := t } : HighscoreEntry)]).filter
          (fun e => e.score == v) := by
  refine ⟨rfl, ?_, ?_, List.perm_insertionSort score_ge _, fun v =>
    filter_sort_by_score_desc _ v⟩
  · unfold add_highscore MAX_HIGHSCORES
    exact List.length_take_le 10 _
  · unfold add_highscore sort_by_score_desc
    exact List.Pairwise.sublist (List.take_sublist _ _)
      (List.sorted_insertionSort score_ge _)

/-- Unfolding one step of `play_correct`. -/
theorem play_correct_cons (s : GameState) (d : Int × Int × Bool)
    (ds : List (Int × Int × Bool)) :
    play_correct s (d :: ds) = play_correct (answer_correct_step s d) ds := rfl

/-- Every round's points are positive. -/
theorem get_points_for_round_pos (r : Nat) : 0 < get_points_for_round r := by
  unfold get_points_for_round POINTS_PHASE_1 POINTS_PHASE_2 POINTS_PHASE_3
  split_ifs <;> omega

/-- Running correct answers from round r with 21 - r answers left finishes the
game with the banded points for rounds r..20 added to the score. -/
theorem play_correct_run :
    ∀ (ds : List (Int × Int × Bool)) (r c : Nat) (q : Question) (t : Option Int)
      (m : String) (f : Bool), r + ds.length = 21 → 1 ≤ r → r ≤ 20 →
      (play_correct ⟨Status.playing, r, c, some q, t, m, f⟩ ds).status =
        Status.game_over ∧
      (play_correct ⟨Status.playing, r, c, some q, t, m, f⟩ ds).score =
        c + points_sum r ds.length ∧
      (play_correct ⟨Status.playing, r, c, some q, t, m, f⟩ ds).current_question =
        none ∧
      (play_correct ⟨Status.playing, r, c, some q, t, m, f⟩ ds).show_highscore_form =
        true := by
  intro ds
  induction ds with
  | nil =>
    intro r c q t m f hlen h1 h20
    exact absurd hlen (by simp; omega)
  | cons d rest ih =>
    intro r c q t m f hlen h1 h20
    rw [play_correct_cons]
    by_cases hr : r + 1 > TOTAL_ROUNDS
    · have hr20 : r = 20 := by unfold TOTAL_ROUNDS at hr; omega
      subst hr20
      have hrest : rest = [] := by
        rw [List.length_cons] at hlen
        exact List.length_eq_zero.mp (by omega)
      subst hrest
      have hpos : 0 < c + get_points_for_round 20 :=
        Nat.lt_of_lt_of_le (get_points_for_round_pos 20) (Nat.le_add_left _ _)
      have hstep : answer_correct_step ⟨Status.playing, 20, c, some q, t, m, f⟩ d =
          ⟨Status.game_over, 21, c + get_points_for_round 20, none, t,
            "Wow! You finished all rounds! You are a math star!", true⟩ := by
        unfold answer_correct_step check_answer TOTAL_ROUNDS
        simp [hpos]
      rw [hstep]
      refine ⟨rfl, ?_, rfl, rfl⟩
      show c + get_points_for_round 20 = c + points_sum 20 [d].length
      simp [points_sum]
    · have hnr : ¬ r + 1 > TOTAL_ROUNDS := hr
      have hstep : answer_correct_step ⟨Status.playing, r, c, some q, t, m, f⟩ d =
          ⟨Status.playing, r + 1, c + get_points_for_round r,
            some (generate_question (r + 1) d.1 d.2.1 d.2.2), t,
            "Great job! That was correct. +" ++
              toString (get_points_for_round r) ++ " points.", f⟩ := by
        unfold answer_correct_step check_answer
        simp [hnr]
      rw [hstep]
      have h21 : r + 1 ≤ 20 := by unfold TOTAL_ROUNDS at hnr; omega
      obtain ⟨hst, hsc, hqn, hshf⟩ := ih (r + 1) (c + get_points_for_round r)
        (generate_question (r + 1) d.1 d.2.1 d.2.2) t
        ("Great job! That was correct. +" ++
          toString (get_points_for_round r) ++ " points.") f
        (by rw [List.length_cons] at hlen; omega) (by omega) h21
      refine ⟨hst, ?_, hqn, hshf⟩
      rw [hsc, List.length_cons]
      simp [points_sum]
      omega

/-- C3: starting a session and answering all 20 rounds correctly (each
`check_answer` call fed the current question's own answer), for any outcomes
of the random draws, yields a final state with score 102, status game_over,
the question cleared, and `show_highscore_form` true. -/
theorem claim_C3 (x y : Int) (sw : Bool) (now : Int)
    (ds : List (Int × Int × Bool)) (hlen : ds.length = 20) :
    (play_correct (start_game x y sw now) ds).score = 102 ∧
    (play_correct (start_game x y sw now) ds).status = Status.game_over ∧
    (play_correct (start_game x y sw now) ds).current_question = none ∧
    (play_correct (start_game x y sw now) ds).show_highscore_form = true := by
  have hs : start_game x y sw now =
      ⟨Status.playing, 1, 0, some (generate_question 1 x y sw), some now,
        "Here is your first question. Good luck!", false⟩ := rfl
  obtain ⟨hst, hsc, hqn, hshf⟩ := play_correct_run ds 1 0 (generate_question 1 x y sw)
    (some now) "Here is your first question. Good luck!" false
    (by omega) (by omega) (by omega)
  rw [hs]
  refine ⟨?_, hst, hqn, hshf⟩
  rw [hsc, hlen]
  decide

/-- Witness for C3: a concrete run of 20 correct answers with all draws 1. -/
theorem claim_C3_witness :
    (play_correct (start_game 2 3 false 0)
        (List.replicate 20 (1, 1, false))).score = 102 ∧
    (play_correct (start_game 2 3 false 0)
        (List.replicate 20 (1, 1, false))).status = Status.game_over :=
  ⟨(claim_C3 2 3 false 0 (List.replicate 20 (1, 1, false)) (by decide)).1,
   (claim_C3 2 3 false 0 (List.replicate 20 (1, 1, false)) (by decide)).2.1⟩

end StreamlitApp
